import Mathlib

/-!
Verification development for the snallabot twitch-notifier service.

The service (a Koa application) exposes:
  - `POST /events`: the inbound Twitch EventSub webhook pipeline, a chain of
    four route middlewares: signature verification, `webhook_callback_verification`
    challenge echo, revocation acknowledgement plus an error-catching wrapper,
    and finally the notification handler with per-server fan-out.
  - `POST /addTwitchNotifier` / `POST /removeTwitchNotifier`: reference-counted
    management of one upstream Twitch subscription per broadcaster, stored in a
    Firestore collection keyed by broadcaster id, each document of shape
    `{ subscriptionId, broadcasterLogin, servers: { [server]: { subscribed } } }`.

External collaborators (the `crypto` library, `JSON.parse`, Firestore document
reads, the Twitch REST client and the downstream event-sender) are modelled as
explicit parameters (an `Env` record of functions, or response values passed in),
while the repository's own control flow is translated directly.
-/

namespace TwitchNotifier

/-! ## Constants from the source -/

def HMAC_PREFIX : String := "sha256="

def MESSAGE_TYPE_VERIFICATION : String := "webhook_callback_verification"

def MESSAGE_TYPE_NOTIFICATION : String := "notification"

def MESSAGE_TYPE_REVOCATION : String := "revocation"

/-! ## Signature verification

`verifyMessage(hmac, verifySignature)` in the source calls Node's
`crypto.timingSafeEqual(Buffer.from(hmac), Buffer.from(verifySignature))`.
`timingSafeEqual` throws a `RangeError` when the two buffers have different
byte lengths, and otherwise returns whether the byte sequences are equal
(compared in constant time; the boolean result coincides with equality of
the UTF-8 encodings, hence with string equality). We model a thrown
exception as `Except.error` carrying the error message. -/

def timingSafeEqualLengthMsg : String := "Input buffers must have the same byte length"

def verifyMessage (hmac : String) (verifySignature : String) : Except String Bool :=
  if hmac.utf8ByteSize = verifySignature.utf8ByteSize then
    Except.ok (hmac == verifySignature)
  else
    Except.error timingSafeEqualLengthMsg

/-! ## The subscription store

One Firestore document per broadcaster (`SubscriptionDoc` in the source).
The `servers` map is modelled as an association list. -/

structure ServerFlag where
  subscribed : Bool
  deriving DecidableEq

structure SubscriptionDoc where
  subscriptionId : String
  broadcasterLogin : String
  servers : List (String × ServerFlag)
  deriving DecidableEq

/-- Firestore `set({servers: {[server]: {subscribed: true}}}, {merge: true})`
restricted to the `servers` map: replace the entry for `server` when present,
insert it otherwise; all other entries and the document's remaining fields
are untouched. -/
def upsertServers : List (String × ServerFlag) → String → List (String × ServerFlag)
  | [], server => [(server, ⟨true⟩)]
  | e :: rest, server =>
    if e.1 = server then (e.1, ⟨true⟩) :: rest else e :: upsertServers rest server

/-- The count computed by the `/removeTwitchNotifier` handler:
`Object.entries(currentSubscription.servers).filter(entry =>
  entry[0] != request.discord_server && entry[1].subscribed).length`. -/
def numSubscribedExcluding (servers : List (String × ServerFlag)) (server : String) : Nat :=
  (servers.filter (fun e => e.1 != server && e.2.subscribed)).length

/-- Firestore `update({[servers.${server}]: FieldValue.delete()})` on the
`servers` map: drop the entry for `server`, keep everything else. -/
def deleteServerKey (servers : List (String × ServerFlag)) (server : String) :
    List (String × ServerFlag) :=
  servers.filter (fun e => e.1 != server)

/-- The state visible to the management handlers for one broadcaster: the
document (if present) plus counters of upstream subscription-create and
subscription-delete calls issued, used to state invariant I2. -/
structure StoreState where
  doc : Option SubscriptionDoc
  creates : Nat
  deletes : Nat
  deriving DecidableEq

def initialState : StoreState := ⟨none, 0, 0⟩

/-- The `/addTwitchNotifier` handler body, after `twitch_url` resolution
(an external Twitch lookup) produced `broadcasterLogin`, for tenant `server`.
If the document exists: merge-set `servers.{server} = {subscribed: true}`.
Otherwise: call `subscribeBroadcasterStreamOnline` (counted in `creates`;
`newSubId` is the id in its successful response) and create the document. -/
def addTenant (st : StoreState) (server broadcasterLogin newSubId : String) : StoreState :=
  match st.doc with
  | some d =>
    { st with doc := some { d with servers := upsertServers d.servers server } }
  | none =>
    { doc := some ⟨newSubId, broadcasterLogin, [(server, ⟨true⟩)]⟩
      creates := st.creates + 1
      deletes := st.deletes }

/-- The upstream `DELETE /helix/subscriptions` response as seen by
`deleteSubscription` in `twitch_client.ts`: `ok` is `res.ok`, `errorText`
is the body text read when `!res.ok`. -/
structure DeleteSubscriptionResponse where
  ok : Bool
  errorText : String
  deriving DecidableEq

/-- `twitch_client.ts` `deleteSubscription`: issues the upstream DELETE and
throws `Could not delete subscription ...` whenever the response is not
successful; returns nothing on success. -/
def deleteSubscription (subscriptionId : String) (res : DeleteSubscriptionResponse) :
    Except String Unit :=
  if res.ok then
    Except.ok ()
  else
    Except.error ("Could not delete subscription " ++ subscriptionId ++ ", error: " ++ res.errorText)

/-- The `/removeTwitchNotifier` handler body, after `twitch_url` resolution,
for tenant `server`; `deleteRes` is the upstream response that
`deleteSubscription` would observe if called. A thrown error is `Except.error`
(the route has no error-catching middleware, so it surfaces as a 500). -/
def removeTenantE (st : StoreState) (server : String)
    (deleteRes : DeleteSubscriptionResponse) : Except String StoreState :=
  match st.doc with
  | some d =>
    if numSubscribedExcluding d.servers server = 0 then
      match deleteSubscription d.subscriptionId deleteRes with
      | Except.error e => Except.error e
      | Except.ok _ =>
        Except.ok { doc := none, creates := st.creates, deletes := st.deletes + 1 }
    else
      Except.ok { st with doc := some { d with servers := deleteServerKey d.servers server } }
  | none => Except.error "Twitch notifier does not exist. It may never have been added"

/-- `removeTenantE` on the success path (the upstream delete succeeds); a
thrown error leaves the store unchanged. Used to run operation sequences. -/
def removeTenant (st : StoreState) (server : String) : StoreState :=
  match removeTenantE st server ⟨true, ""⟩ with
  | Except.ok st2 => st2
  | Except.error _ => st

/-! ## Operation sequences on one entity -/

inductive TenantOp where
  | add (server broadcasterLogin newSubId : String)
  | remove (server : String)

def applyOp (st : StoreState) : TenantOp → StoreState
  | TenantOp.add server login subId => addTenant st server login subId
  | TenantOp.remove server => removeTenant st server

def runOps (ops : List TenantOp) : StoreState :=
  ops.foldl applyOp initialState

/-- Number of tenant entries with `subscribed = true`. -/
def subscribedCount (servers : List (String × ServerFlag)) : Nat :=
  (servers.filter (fun e => e.2.subscribed)).length

/-- Invariant I1 as a boolean check: no stored document has zero subscribed
tenant entries. -/
def recordOk (st : StoreState) : Bool :=
  match st.doc with
  | some d => decide (0 < subscribedCount d.servers)
  | none => true

/-- Invariant I2 as a boolean check: every upstream subscription-create call
is matched by exactly one delete except for the (at most one) subscription
backing a live document, so at most one create is outstanding at any time. -/
def upstreamBalanced (st : StoreState) : Bool :=
  st.creates == st.deletes + (match st.doc with | some _ => 1 | none => 0)

/-! ## The `/events` pipeline

The route is a chain of four middlewares. Library calls and network reads
are supplied through `Env`; a thrown JavaScript exception is `Except.error`
carrying the error message. An `Except.error` result of the whole pipeline
is an exception that escaped every route middleware (Koa's default handler
then produces a generic response, not the documented `500 {message}` body,
which only the route's own error-catching middleware produces). -/

/-- `data[0]` of `retrieveChannelInformation`'s response (the fields the
notification handler reads). -/
structure BroadcasterChannel where
  broadcaster_name : String
  title : String
  deriving DecidableEq

/-- One `BROADCAST_CONFIGURATION` event from the downstream event-sender;
`timestampMs` is `new Date(timestamp).getTime()`. -/
structure BroadcastConfigEvent where
  timestampMs : Int
  title_keyword : String
  deriving DecidableEq

/-- The projection of `JSON.parse(rawBody)` that the verification middleware
reads: its `challenge` field, when the parsed object carries one. -/
structure ParsedBody where
  challenge : Option String
  deriving DecidableEq

inductive RespBody where
  | empty
  | text (s : String)
  | jsonMessage (message : String)
  | undef
  deriving DecidableEq

structure Response where
  status : Nat
  contentType : Option String
  body : RespBody
  deriving DecidableEq

/-- One POST to the event-sender's `/post` endpoint (a forwarded downstream
MADDEN_BROADCAST notification). -/
structure Forward where
  key : String
  title : String
  video : String
  deriving DecidableEq

/-- An inbound `/events` request: the Twitch EventSub headers, the raw body,
and `event.broadcaster_user_id` of the body as parsed by the body parser. -/
structure EventsRequest where
  messageId : String
  messageTimestamp : String
  signature : String
  messageType : String
  rawBody : String
  broadcasterUserId : String
  deriving DecidableEq

/-- External collaborators of the pipeline: the configured secret, the
`crypto` HMAC-SHA256 hex digest, `JSON.parse` (projected to the `challenge`
field), `twitchClient.retrieveChannelInformation` (projected to `data[0]`,
`Except.error` when it throws), the Firestore document read, and the
event-sender `/query` results per server. -/
structure Env where
  secret : String
  hmacHex : String → String → String
  parseBody : String → Except String ParsedBody
  channelInfo : String → Except String BroadcasterChannel
  store : String → Option SubscriptionDoc
  configs : String → List BroadcastConfigEvent

def createTwitchUrl (broadcasterLogin : String) : String :=
  "https://www.twitch.tv/" ++ broadcasterLogin

/-- `String.prototype.toLowerCase` restricted to ASCII (all strings compared
by the matcher in the claims are ASCII). -/
def jsToLower (s : String) : String :=
  ⟨s.data.map (fun c => if 'A' ≤ c ∧ c ≤ 'Z' then Char.ofNat (c.toNat + 32) else c)⟩

/-- `needle` occurs as a contiguous run inside the character list. -/
def charsInclude (needle : List Char) : List Char → Bool
  | [] => needle.isEmpty
  | c :: rest => needle.isPrefixOf (c :: rest) || charsInclude needle rest

/-- `a.includes(b)`: `b` occurs as a contiguous substring of `a`. -/
def jsIncludes (a b : String) : Bool :=
  charsInclude b.data a.data

/-- Insert into a descending-by-timestamp list, after entries with an equal
or larger timestamp (stable insertion). -/
def insertDescByTime (e : BroadcastConfigEvent) :
    List BroadcastConfigEvent → List BroadcastConfigEvent
  | [] => [e]
  | f :: rest =>
    if f.timestampMs < e.timestampMs then e :: f :: rest else f :: insertDescByTime e rest

/-- `broadcastResponse.BROADCAST_CONFIGURATION.sort((a, b) =>
new Date(b.timestamp).getTime() - new Date(a.timestamp).getTime())`:
a stable sort putting the most recent configuration first. -/
def sortConfigsDesc (events : List BroadcastConfigEvent) : List BroadcastConfigEvent :=
  events.foldr insertDescByTime []

/-- The per-server closure inside the notification handler's
`Promise.all(subscribedServers.map(...))`: fetch the server's
`BROADCAST_CONFIGURATION` events, take the most recent; with no
configuration, log and forward nothing; otherwise forward exactly when the
lowercased broadcast title contains the lowercased keyword. -/
def fanoutServer (env : Env) (broadcaster : BroadcasterChannel) (server : String) :
    Option Forward :=
  match sortConfigsDesc (env.configs server) with
  | [] => none
  | configuration :: _ =>
    if jsIncludes (jsToLower broadcaster.title) (jsToLower configuration.title_keyword) then
      some ⟨server, broadcaster.title, createTwitchUrl broadcaster.broadcaster_name⟩
    else
      none

/-- The fourth `/events` middleware (the notification handler). It sets
`ctx.status = 200`, awaits the (empty) rest of the chain, then performs the
post-acknowledgment work inside the same handler: channel lookup, Firestore
document read — throwing `Subscription for ... does not exist!` when the
document is absent — and per-server fan-out. The returned list collects the
forwarded downstream notifications. -/
def notificationHandler (env : Env) (req : EventsRequest) :
    Except String (Response × List Forward) :=
  match env.channelInfo req.broadcasterUserId with
  | Except.error e => Except.error e
  | Except.ok broadcaster =>
    match env.store req.broadcasterUserId with
    | none => Except.error ("Subscription for " ++ req.broadcasterUserId ++ " does not exist!")
    | some subscription =>
      let subscribedServers :=
        (subscription.servers.filter (fun e => e.2.subscribed)).map (fun e => e.1)
      Except.ok (⟨200, none, RespBody.empty⟩, subscribedServers.filterMap (fanoutServer env broadcaster))

/-- The `/events` route: signature middleware (403 on mismatch, and the
`timingSafeEqual` RangeError escapes uncaught), verification middleware
(echo the `challenge` of `JSON.parse(rawBody)` as `text/plain`; a parse
failure escapes uncaught, since the error-catching middleware sits later in
the chain), the revocation/error-catching middleware (204 on revocation;
otherwise errors thrown by the notification handler become
`500 {message: err.message}`), then the notification handler. -/
def eventsPipeline (env : Env) (req : EventsRequest) :
    Except String (Response × List Forward) :=
  let message := req.messageId ++ req.messageTimestamp ++ req.rawBody
  let hmac := HMAC_PREFIX ++ env.hmacHex env.secret message
  match verifyMessage hmac req.signature with
  | Except.error e => Except.error e
  | Except.ok false => Except.ok (⟨403, none, RespBody.empty⟩, [])
  | Except.ok true =>
    if req.messageType = MESSAGE_TYPE_VERIFICATION then
      match env.parseBody req.rawBody with
      | Except.error e => Except.error e
      | Except.ok parsed =>
        match parsed.challenge with
        | some ch => Except.ok (⟨200, some "text/plain", RespBody.text ch⟩, [])
        | none => Except.ok (⟨200, some "text/plain", RespBody.undef⟩, [])
    else if MESSAGE_TYPE_REVOCATION = req.messageType then
      Except.ok (⟨204, none, RespBody.empty⟩, [])
    else
      match notificationHandler env req with
      | Except.error err => Except.ok (⟨500, none, RespBody.jsonMessage err⟩, [])
      | Except.ok r => Except.ok r

/-! ## Helper lemmas about the store operations -/

lemma upsertServers_ne_nil (l : List (String × ServerFlag)) (s : String) :
    upsertServers l s ≠ [] := by
  cases l with
  | nil => simp [upsertServers]
  | cons e rest =>
    simp only [upsertServers]
    split <;> simp

lemma mem_upsertServers (l : List (String × ServerFlag)) (s : String)
    (e : String × ServerFlag) (he : e ∈ upsertServers l s) :
    e ∈ l ∨ e.2 = ⟨true⟩ := by
  induction l with
  | nil =>
    simp only [upsertServers, List.mem_singleton] at he
    right
    rw [he]
  | cons f rest ih =>
    simp only [upsertServers] at he
    split at he
    · rcases List.mem_cons.mp he with h1 | h1
      · right; rw [h1]
      · left; exact List.mem_cons_of_mem _ h1
    · rcases List.mem_cons.mp he with h1 | h1
      · left; rw [h1]; exact List.mem_cons_self _ _
      · rcases ih h1 with h2 | h2
        · left; exact List.mem_cons_of_mem _ h2
        · right; exact h2

lemma upsertServers_idem (l : List (String × ServerFlag)) (s : String) :
    upsertServers (upsertServers l s) s = upsertServers l s := by
  induction l with
  | nil => simp [upsertServers]
  | cons f rest ih =>
    by_cases h : f.1 = s
    · simp [upsertServers, h]
    · simp [upsertServers, h, ih]

lemma deleteServerKey_ne_nil (l : List (String × ServerFlag)) (s : String)
    (h : numSubscribedExcluding l s ≠ 0) : deleteServerKey l s ≠ [] := by
  unfold numSubscribedExcluding at h
  unfold deleteServerKey
  intro hnil
  apply h
  have hall : ∀ a ∈ l, ¬((a.1 != s && a.2.subscribed) = true) := by
    intro a ha
    have hmem := List.filter_eq_nil_iff.mp hnil a ha
    simp only [bne_iff_ne, ne_eq, Decidable.not_not] at hmem
    simp [hmem]
  rw [List.filter_eq_nil_iff.mpr hall]
  rfl

/-- `Object.entries` lookup of one tenant in the `servers` map. -/
def lookupServer (l : List (String × ServerFlag)) (k : String) : Option ServerFlag :=
  (l.find? (fun e => e.1 == k)).map (fun e => e.2)

lemma lookupServer_deleteServerKey_self (l : List (String × ServerFlag)) (s : String) :
    lookupServer (deleteServerKey l s) s = none := by
  unfold lookupServer deleteServerKey
  have hnone : (l.filter (fun e => e.1 != s)).find? (fun e => e.1 == s) = none := by
    rw [List.find?_eq_none]
    intro a ha
    have := (List.mem_filter.mp ha).2
    simp only [bne_iff_ne, ne_eq] at this
    simp [this]
  rw [hnone]
  rfl

lemma lookupServer_deleteServerKey_other (l : List (String × ServerFlag)) (s k : String)
    (hk : k ≠ s) : lookupServer (deleteServerKey l s) k = lookupServer l k := by
  unfold lookupServer deleteServerKey
  congr 1
  induction l with
  | nil => rfl
  | cons f rest ih =>
    rw [List.filter_cons, List.find?_cons]
    by_cases hf : f.1 = s
    · have hq : (f.1 != s) = false := by simp [hf]
      have hp : (f.1 == k) = false := by
        rw [hf]
        exact beq_eq_false_iff_ne.mpr (fun hh => hk hh.symm)
      rw [hq, hp]
      simp only [Bool.false_eq_true, if_false]
      exact ih
    · have hq : (f.1 != s) = true := by simp [hf]
      rw [hq]
      simp only [if_true]
      rw [List.find?_cons]
      cases hp : (f.1 == k) <;> simp only [hp, ih]

/-! ## The reachable-state invariant behind claims C3 and C6 -/

/-- States reachable by the management handlers: every stored document has a
nonempty `servers` map whose entries are all `subscribed = true`, and the
upstream create/delete counters are balanced except for the (at most one)
subscription backing a live document. -/
def GoodState (st : StoreState) : Prop :=
  (∀ d, st.doc = some d → d.servers ≠ [] ∧ ∀ e ∈ d.servers, e.2.subscribed = true) ∧
  st.creates = st.deletes + (match st.doc with | some _ => 1 | none => 0)

lemma goodState_initial : GoodState initialState := by
  constructor
  · intro d hd
    simp [initialState] at hd
  · simp [initialState]

lemma goodState_addTenant (st : StoreState) (server login subId : String)
    (h : GoodState st) : GoodState (addTenant st server login subId) := by
  obtain ⟨hdoc, hcnt⟩ := h
  cases hst : st.doc with
  | none =>
    rw [hst] at hcnt
    simp only at hcnt
    constructor
    · intro d hd
      simp only [addTenant, hst] at hd
      cases hd
      constructor
      · simp
      · intro e he
        simp only [List.mem_singleton] at he
        rw [he]
    · simp only [addTenant, hst]
      omega
  | some d0 =>
    rw [hst] at hcnt
    simp only at hcnt
    constructor
    · intro d hd
      simp only [addTenant, hst, Option.some.injEq] at hd
      obtain ⟨hne, htrue⟩ := hdoc d0 hst
      cases hd
      constructor
      · exact upsertServers_ne_nil _ _
      · intro e he
        rcases mem_upsertServers _ _ _ he with h1 | h1
        · exact htrue e h1
        · rw [h1]
    · simp only [addTenant, hst]
      omega

lemma goodState_removeTenant (st : StoreState) (server : String)
    (h : GoodState st) : GoodState (removeTenant st server) := by
  obtain ⟨hdoc, hcnt⟩ := h
  cases hst : st.doc with
  | none =>
    have heq : removeTenant st server = st := by
      simp [removeTenant, removeTenantE, hst]
    rw [heq]
    exact ⟨hdoc, hcnt⟩
  | some d =>
    rw [hst] at hcnt
    simp only at hcnt
    by_cases h0 : numSubscribedExcluding d.servers server = 0
    · have heq : removeTenant st server = ⟨none, st.creates, st.deletes + 1⟩ := by
        simp [removeTenant, removeTenantE, hst, h0, deleteSubscription]
      rw [heq]
      constructor
      · intro d2 hd2
        simp at hd2
      · simp only
        omega
    · have heq : removeTenant st server =
          { st with doc := some { d with servers := deleteServerKey d.servers server } } := by
        simp [removeTenant, removeTenantE, hst, h0, deleteSubscription]
      rw [heq]
      constructor
      · intro d2 hd2
        simp only [Option.some.injEq] at hd2
        obtain ⟨hne, htrue⟩ := hdoc d hst
        cases hd2
        constructor
        · exact deleteServerKey_ne_nil _ _ h0
        · intro e he
          exact htrue e (List.mem_filter.mp he).1
      · simp only
        omega

lemma goodState_applyOp (st : StoreState) (op : TenantOp) (h : GoodState st) :
    GoodState (applyOp st op) := by
  cases op with
  | add server login subId => exact goodState_addTenant st server login subId h
  | remove server => exact goodState_removeTenant st server h

lemma goodState_foldl (ops : List TenantOp) (st : StoreState) (h : GoodState st) :
    GoodState (ops.foldl applyOp st) := by
  induction ops generalizing st with
  | nil => exact h
  | cons op rest ih => exact ih _ (goodState_applyOp st op h)

/-! ## Claim theorems: signature comparison (C2) -/

/-- Claim C2, counterexample: `verifyMessage` is not total on mismatched
byte lengths — `timingSafeEqual` throws its RangeError instead of returning
false when the computed HMAC string and the provided signature header have
different byte lengths. -/
theorem verifyMessage_length_mismatch_counterexample :
    verifyMessage "sha256=ab" "sha256=a" = Except.error timingSafeEqualLengthMsg := rfl

/-- Claim C2, amended: for every pair of strings, `verifyMessage` returns the
byte-equality verdict (false on any mismatch, never throwing) whenever the two
byte strings have equal lengths, and throws the `timingSafeEqual` RangeError
whenever their byte lengths differ. -/
theorem verifyMessage_total_on_equal_lengths (hmac sig : String) :
    (hmac.utf8ByteSize = sig.utf8ByteSize →
      verifyMessage hmac sig = Except.ok (hmac == sig)) ∧
    (hmac.utf8ByteSize ≠ sig.utf8ByteSize →
      verifyMessage hmac sig = Except.error timingSafeEqualLengthMsg) := by
  constructor
  · intro h
    simp [verifyMessage, h]
  · intro h
    simp [verifyMessage, h]

/-- Claim C2, witness: both branches of the amended claim at concrete inputs. -/
theorem verifyMessage_total_on_equal_lengths_witness :
    verifyMessage "sha256=x" "sha256=y" = Except.ok false ∧
    verifyMessage "ab" "a" = Except.error timingSafeEqualLengthMsg := by
  constructor
  · have h := (verifyMessage_total_on_equal_lengths "sha256=x" "sha256=y").1 (by decide)
    rw [h]
    rfl
  · exact (verifyMessage_total_on_equal_lengths "ab" "a").2 (by decide)

/-! ## Claim theorems: store invariants (C3) -/

/-- Claim C3: for every finite sequence of addTenant/removeTenant operations
on a single entity starting from the empty store, the store never holds a
SubscriptionRecord whose tenant map has zero entries with `subscribed = true`
(I1), and upstream subscription-create calls are matched one-to-one with
delete calls except for the at most one subscription backing a live record,
so at most one create is issued between a creation and its matching
deletion (I2). -/
theorem store_invariants_hold (ops : List TenantOp) :
    recordOk (runOps ops) = true ∧ upstreamBalanced (runOps ops) = true := by
  have h : GoodState (runOps ops) := goodState_foldl ops initialState goodState_initial
  obtain ⟨hdoc, hcnt⟩ := h
  constructor
  · unfold recordOk
    cases hst : (runOps ops).doc with
    | none => rfl
    | some d =>
      obtain ⟨hne, htrue⟩ := hdoc d hst
      have hfil : d.servers.filter (fun e => e.2.subscribed) = d.servers :=
        List.filter_eq_self.mpr (fun a ha => htrue a ha)
      simp only [subscribedCount, hfil, decide_eq_true_eq]
      exact List.length_pos.mpr hne
  · unfold upstreamBalanced
    simp only [beq_iff_eq]
    exact hcnt

/-! ## Claim theorems: addTenant idempotence (C4) -/

/-- Claim C4: for every entity, tenant and starting store state, calling
`addTenant` twice in a row yields exactly the same store state (document and
upstream-call counters, so in particular zero additional subscription-create
calls) as calling it once; the second call's resolved login and upstream
response are irrelevant. -/
theorem addTenant_idempotent (st : StoreState)
    (server login1 subId1 login2 subId2 : String) :
    addTenant (addTenant st server login1 subId1) server login2 subId2 =
      addTenant st server login1 subId1 := by
  cases hst : st.doc with
  | none => simp [addTenant, hst, upsertServers]
  | some d => simp [addTenant, hst, upsertServers_idem]

/-! ## Claim theorems: redundant upstream deletion (C5) -/

/-- Claim C5, counterexample: a redundant deletion — the upstream returns a
non-success response for an already-deleted subscription — is not treated as
success-equivalent: `deleteSubscription` throws, and the
`/removeTwitchNotifier` handler (which has no error handling around it)
propagates the thrown error instead of completing. -/
theorem deleteSubscription_redundant_counterexample :
    removeTenantE ⟨some ⟨"subid", "login", [("a", ⟨true⟩)]⟩, 1, 0⟩ "a"
        ⟨false, "subscription not found"⟩ =
      Except.error "Could not delete subscription subid, error: subscription not found" := rfl

/-- Claim C5, amended: `deleteSubscription` treats only a success upstream
response as success; any non-success response (including the one returned for
a second deletion of an already-deleted subscription) is raised as a thrown
error, which the `/removeTwitchNotifier` caller propagates as a failure. -/
theorem deleteSubscription_response_cases (subId : String)
    (res : DeleteSubscriptionResponse) :
    (res.ok = true → deleteSubscription subId res = Except.ok ()) ∧
    (res.ok = false → deleteSubscription subId res =
      Except.error ("Could not delete subscription " ++ subId ++ ", error: " ++ res.errorText)) := by
  constructor
  · intro h
    simp [deleteSubscription, h]
  · intro h
    simp [deleteSubscription, h]

/-- Claim C5, witness: both response cases at concrete inputs. -/
theorem deleteSubscription_response_cases_witness :
    deleteSubscription "subid" ⟨true, ""⟩ = Except.ok () ∧
    deleteSubscription "subid" ⟨false, "notfound"⟩ =
      Except.error "Could not delete subscription subid, error: notfound" := by
  constructor
  · exact (deleteSubscription_response_cases "subid" ⟨true, ""⟩).1 rfl
  · have h := (deleteSubscription_response_cases "subid" ⟨false, "notfound"⟩).2 rfl
    rw [h]
    rfl

/-! ## Claim theorems: removeTenant frame conditions (C6) -/

/-- Claim C6: on a store whose record exists, removing a tenant that is not
the last subscribed one keeps the document (same `subscriptionId`, same
`broadcasterLogin`), drops exactly that tenant's entry (every other tenant's
entry is unchanged) and issues no upstream calls; removing the last
subscribed tenant issues the upstream subscription deletion and removes the
record entirely. -/
theorem removeTenant_frame (st : StoreState) (d : SubscriptionDoc) (server : String)
    (h : st.doc = some d) :
    (numSubscribedExcluding d.servers server ≠ 0 →
      (removeTenant st server).doc =
          some ⟨d.subscriptionId, d.broadcasterLogin, deleteServerKey d.servers server⟩ ∧
        lookupServer (deleteServerKey d.servers server) server = none ∧
        (∀ k, k ≠ server →
          lookupServer (deleteServerKey d.servers server) k = lookupServer d.servers k) ∧
        (removeTenant st server).creates = st.creates ∧
        (removeTenant st server).deletes = st.deletes) ∧
    (numSubscribedExcluding d.servers server = 0 →
      (removeTenant st server).doc = none ∧
        (removeTenant st server).deletes = st.deletes + 1 ∧
        (removeTenant st server).creates = st.creates) := by
  constructor
  · intro hne
    have heq : removeTenant st server =
        { st with doc := some { d with servers := deleteServerKey d.servers server } } := by
      simp [removeTenant, removeTenantE, h, hne, deleteSubscription]
    refine ⟨?_, lookupServer_deleteServerKey_self _ _,
      fun k hk => lookupServer_deleteServerKey_other _ _ _ hk, ?_, ?_⟩ <;> rw [heq]
  · intro h0
    have heq : removeTenant st server = ⟨none, st.creates, st.deletes + 1⟩ := by
      simp [removeTenant, removeTenantE, h, h0, deleteSubscription]
    rw [heq]
    exact ⟨rfl, rfl, rfl⟩

/-- A concrete two-tenant store state used by the claim C6 witness. -/
def frameDoc : SubscriptionDoc := ⟨"sub1", "login1", [("a", ⟨true⟩), ("b", ⟨true⟩)]⟩

/-- A concrete store state holding `frameDoc`. -/
def frameState : StoreState := ⟨some frameDoc, 1, 0⟩

/-- Claim C6, witness: removing tenant `"a"` (not the last) keeps the record
with the same subscription id and tenant `"b"` untouched; then removing
tenant `"b"` (the last) deletes the upstream subscription and the record. -/
theorem removeTenant_frame_witness :
    (removeTenant frameState "a").doc = some ⟨"sub1", "login1", [("b", ⟨true⟩)]⟩ ∧
    lookupServer (deleteServerKey frameDoc.servers "a") "b" = lookupServer frameDoc.servers "b" ∧
    lookupServer (deleteServerKey frameDoc.servers "a") "a" = none ∧
    (removeTenant ⟨some ⟨"sub1", "login1", [("b", ⟨true⟩)]⟩, 1, 0⟩ "b").doc = none ∧
    (removeTenant ⟨some ⟨"sub1", "login1", [("b", ⟨true⟩)]⟩, 1, 0⟩ "b").deletes = 1 := by
  have h1 := (removeTenant_frame frameState frameDoc "a" rfl).1 (by decide)
  have h2 := (removeTenant_frame ⟨some ⟨"sub1", "login1", [("b", ⟨true⟩)]⟩, 1, 0⟩
    ⟨"sub1", "login1", [("b", ⟨true⟩)]⟩ "b" rfl).2 (by decide)
  refine ⟨?_, h1.2.2.1 "b" (by decide), h1.2.1, h2.1, h2.2.1⟩
  rw [h1.1]
  decide

/-! ## Claim theorems: the `/events` pipeline (C1, C8, C9, C10) -/

lemma verifyMessage_self (s : String) : verifyMessage s s = Except.ok true := by
  simp [verifyMessage]

/-- A concrete environment whose store holds no document and whose
`JSON.parse` fails; used by the C1 and C10 concrete runs. -/
def envNoRecord : Env :=
  { secret := "secret"
    hmacHex := fun _ _ => "aaaa"
    parseBody := fun _ => Except.error "Unexpected token o in JSON at position 1"
    channelInfo := fun _ => Except.ok ⟨"TwitchDev", "TwitchDev Monthly Update"⟩
    store := fun _ => none
    configs := fun _ => [] }

/-- A concrete correctly-signed `notification` webhook request. -/
def reqNotify : EventsRequest :=
  { messageId := "id1"
    messageTimestamp := "ts1"
    signature := "sha256=aaaa"
    messageType := "notification"
    rawBody := "{}"
    broadcasterUserId := "141981764" }

/-- Claim C1, counterexample: a correctly-signed `notification` webhook for an
entity with no stored record does not complete with status 200 — the
not-found error thrown after `ctx.status = 200` is caught by the
error-catching middleware before Koa sends the response, which overwrites the
status with 500 and the body with `{message}`. (No downstream notification is
forwarded: the forward list is empty.) -/
theorem notification_missing_record_counterexample :
    eventsPipeline envNoRecord reqNotify =
      Except.ok
        (⟨500, none, RespBody.jsonMessage "Subscription for 141981764 does not exist!"⟩, []) := rfl

/-- Claim C1, amended: for every correctly-signed `notification` webhook
naming an entity whose channel lookup succeeds but which has no stored
record, the thrown not-found error is caught by the error-catching middleware
and the request completes with response status 500 and body
`{message: "Subscription for ... does not exist!"}` (not 200), and no
downstream notification is forwarded. -/
theorem notification_missing_record_amended (env : Env) (req : EventsRequest)
    (b : BroadcasterChannel)
    (hsig : req.signature =
      HMAC_PREFIX ++ env.hmacHex env.secret (req.messageId ++ req.messageTimestamp ++ req.rawBody))
    (htype : req.messageType = MESSAGE_TYPE_NOTIFICATION)
    (hchan : env.channelInfo req.broadcasterUserId = Except.ok b)
    (hstore : env.store req.broadcasterUserId = none) :
    eventsPipeline env req =
      Except.ok
        (⟨500, none,
          RespBody.jsonMessage ("Subscription for " ++ req.broadcasterUserId ++ " does not exist!")⟩,
         []) := by
  have hne1 : MESSAGE_TYPE_NOTIFICATION ≠ MESSAGE_TYPE_VERIFICATION := by decide
  have hne2 : MESSAGE_TYPE_REVOCATION ≠ MESSAGE_TYPE_NOTIFICATION := by decide
  simp only [eventsPipeline, hsig, verifyMessage_self, htype, hne1, hne2, if_false,
    notificationHandler, hchan, hstore]

/-- Claim C1, witness for the amended theorem: the concrete run. -/
theorem notification_missing_record_amended_witness :
    eventsPipeline envNoRecord reqNotify =
      Except.ok
        (⟨500, none, RespBody.jsonMessage "Subscription for 141981764 does not exist!"⟩, []) :=
  notification_missing_record_amended envNoRecord reqNotify
    ⟨"TwitchDev", "TwitchDev Monthly Update"⟩ rfl rfl rfl rfl

/-- A concrete environment whose `JSON.parse` result carries
`challenge = "abc123"`. -/
def envEcho : Env :=
  { envNoRecord with
      parseBody := fun _ => Except.ok ⟨some "abc123"⟩ }

/-- A concrete correctly-signed `webhook_callback_verification` request. -/
def reqVerify : EventsRequest :=
  { reqNotify with
      messageType := "webhook_callback_verification"
      rawBody := "a json body carrying challenge abc123" }

/-- Claim C8: every webhook that passes signature verification and carries
message-type `webhook_callback_verification` with a parseable body holding a
`challenge` field yields status 200, content-type text/plain and body exactly
the challenge value, and no further handler runs (nothing is forwarded). -/
theorem verification_challenge_echo (env : Env) (req : EventsRequest)
    (parsed : ParsedBody) (ch : String)
    (hsig : req.signature =
      HMAC_PREFIX ++ env.hmacHex env.secret (req.messageId ++ req.messageTimestamp ++ req.rawBody))
    (htype : req.messageType = MESSAGE_TYPE_VERIFICATION)
    (hparse : env.parseBody req.rawBody = Except.ok parsed)
    (hch : parsed.challenge = some ch) :
    eventsPipeline env req =
      Except.ok (⟨200, some "text/plain", RespBody.text ch⟩, []) := by
  simp only [eventsPipeline, hsig, verifyMessage_self, htype, if_pos, hparse, hch]

/-- Claim C8, witness: the concrete challenge echo run. -/
theorem verification_challenge_echo_witness :
    eventsPipeline envEcho reqVerify =
      Except.ok (⟨200, some "text/plain", RespBody.text "abc123"⟩, []) :=
  verification_challenge_echo envEcho reqVerify ⟨some "abc123"⟩ "abc123" rfl rfl rfl rfl

/-- A concrete correctly-signed verification request whose raw body is not
valid JSON. -/
def reqBadJson : EventsRequest :=
  { reqNotify with
      messageType := "webhook_callback_verification"
      rawBody := "not json" }

/-- Claim C10: when a webhook passes signature verification, carries
message-type `webhook_callback_verification` and has a raw body on which
`JSON.parse` throws, the exception escapes the whole route (the
error-catching middleware sits later in the chain), so the request does not
produce the documented `500 {message}` response — the pipeline ends in an
uncaught error instead of any handled response. -/
theorem verification_parse_error_uncaught (env : Env) (req : EventsRequest) (e : String)
    (hsig : req.signature =
      HMAC_PREFIX ++ env.hmacHex env.secret (req.messageId ++ req.messageTimestamp ++ req.rawBody))
    (htype : req.messageType = MESSAGE_TYPE_VERIFICATION)
    (hparse : env.parseBody req.rawBody = Except.error e) :
    eventsPipeline env req = Except.error e := by
  simp only [eventsPipeline, hsig, verifyMessage_self, htype, if_pos, hparse]

/-- Claim C10, witness: the concrete invalid-JSON verification run. -/
theorem verification_parse_error_uncaught_witness :
    eventsPipeline envNoRecord reqBadJson =
      Except.error "Unexpected token o in JSON at position 1" :=
  verification_parse_error_uncaught envNoRecord reqBadJson
    "Unexpected token o in JSON at position 1" rfl rfl rfl

/-- Claim C9: whenever a server has at least one broadcast configuration (so
`configuration` is the most recent one after the descending sort), the
per-server fan-out closure forwards a notification exactly when the
lowercased broadcast title contains the lowercased configured keyword. -/
theorem fanout_keyword_match_iff (env : Env) (b : BroadcasterChannel) (server : String)
    (c : BroadcastConfigEvent) (rest : List BroadcastConfigEvent)
    (hsort : sortConfigsDesc (env.configs server) = c :: rest) :
    (fanoutServer env b server).isSome =
      jsIncludes (jsToLower b.title) (jsToLower c.title_keyword) := by
  unfold fanoutServer
  rw [hsort]
  cases hj : jsIncludes (jsToLower b.title) (jsToLower c.title_keyword) <;> simp [hj]

/-- A concrete environment configured with keyword `"ladder"`. -/
def envLadder : Env :=
  { envNoRecord with
      configs := fun _ => [⟨0, "ladder"⟩] }

/-- The spec's example broadcast: title `Ranked LADDER night`. -/
def ladderChannel : BroadcasterChannel := ⟨"TwitchDev", "Ranked LADDER night"⟩

/-- Claim C9, witness: title `Ranked LADDER night` matches keyword `ladder`,
so the notification is forwarded. -/
theorem fanout_keyword_match_iff_witness :
    (fanoutServer envLadder ladderChannel "server1").isSome = true := by
  have h := fanout_keyword_match_iff envLadder ladderChannel "server1" ⟨0, "ladder"⟩ [] rfl
  rw [h]
  decide

end TwitchNotifier
